import Mathlib

/-!
Verification of the two administrative scripts in this repository
(`scripts/update-builder-agent.py` and `scripts/create-readme-agent.py`)
against their specification.

JSON-like values are embedded as the inductive type `JsonVal`; Python dicts
become association lists (`Obj`) whose key lookup (`dget`) finds the first
matching key, and whose key assignment (`dset`) replaces the value of an
existing key in place or appends a new key at the end, matching Python
`dict.get` / `dict.__setitem__` insertion-order semantics.  HTTP traffic is
embedded by an environment supplying the responses of the successive
requests; the request trace issued by a run is returned explicitly.  An
uncaught Python exception terminates the process with exit status 1, so
every abort path is embedded as exit code 1.
-/

inductive JsonVal : Type where
  | str (s : String)
  | num (n : Int)
  | bool (b : Bool)
  | null
  | arr (xs : List JsonVal)
  | obj (fields : List (String × JsonVal))

/-- A Python dict holding JSON data, as an insertion-ordered association list. -/
abbrev Obj := List (String × JsonVal)

/-- `d.get(k)`: value of the first entry with key `k`, if any. -/
def dget : Obj → String → Option JsonVal
  | [], _ => none
  | (k', v) :: rest, k => if k' = k then some v else dget rest k

/-- `d[k] = v`: replace the value of the first entry with key `k` in place,
or append a new entry at the end when `k` is absent. -/
def dset : Obj → String → JsonVal → Obj
  | [], k, v => [(k, v)]
  | (k', v') :: rest, k, v =>
    if k' = k then (k, v) :: rest else (k', v') :: dset rest k v

/-- Python falsiness (`not x`) for the embedded JSON values. -/
def pyFalsy : JsonVal → Bool
  | JsonVal.str s => s = ""
  | JsonVal.num n => n = 0
  | JsonVal.bool b => !b
  | JsonVal.null => true
  | JsonVal.arr xs => xs.isEmpty
  | JsonVal.obj fields => fields.isEmpty

/-! ## update-builder-agent.py: constants and the feature merge -/

/-- The module-level `SHORT_TERM_MEMORY_CONFIG` constant. -/
def SHORT_TERM_MEMORY_CONFIG : Obj :=
  [("type", JsonVal.str "SHORT_TERM_MEMORY"),
   ("config", JsonVal.obj [("message_count", JsonVal.num 20)]),
   ("priority", JsonVal.num 0)]

/-- The test `x in ("memory", "SHORT_TERM_MEMORY", "STRUCTURED_MEMORY")`:
Python `in` compares with `==`, and no non-string JSON value equals any of
the three string discriminants. -/
def isMemoryType : Option JsonVal → Bool
  | some (JsonVal.str s) =>
      s = "memory" || s = "SHORT_TERM_MEMORY" || s = "STRUCTURED_MEMORY"
  | _ => false

/-- The filter test `f.get("type") in ("memory", "SHORT_TERM_MEMORY",
"STRUCTURED_MEMORY")` in the comprehension of `ensure_short_term_memory`
(an absent key yields `None`, which matches none of the three strings). -/
def isMemoryFeature (f : Obj) : Bool :=
  isMemoryType (dget f "type")

/-- `ensure_short_term_memory`: drop every memory-kind entry, then append
`SHORT_TERM_MEMORY_CONFIG`. -/
def ensure_short_term_memory (features : List Obj) : List Obj :=
  features.filter (fun f => !isMemoryFeature f) ++ [SHORT_TERM_MEMORY_CONFIG]

/-- The `readonly_fields` list stripped from the fetched config in `main`. -/
def readonly_fields : List String :=
  ["_id", "created_at", "updated_at", "api_key", "version"]

/-- `data.get("spec", {}).get("instructions", ...)` without the final default:
the nested instructions value when `spec` is a mapping holding one.  (A
non-mapping `spec` value would raise in the source and likewise abort before
any request; it is folded into the absent case.) -/
def rawInstructions (data : Obj) : Option JsonVal :=
  match dget data "spec" with
  | some (JsonVal.obj spec) => dget spec "instructions"
  | _ => none

/-- `load_system_prompt_from_yaml`, over the parsed YAML document (`none` =
the file does not exist).  `if not instructions` is Python falsiness. -/
def load_system_prompt_from_yaml (yamlData : Option Obj) : Except String JsonVal :=
  match yamlData with
  | none => Except.error "YAML file not found"
  | some data =>
    let instructions := (rawInstructions data).getD (JsonVal.str "")
    if pyFalsy instructions then Except.error "No instructions found in YAML file"
    else Except.ok instructions

/-- `payload.get("features", [])` as a list of dicts: `some` of the entries
when the value is absent (default `[]`) or is an array of objects; `none`
when iterating it or calling `.get` on an element would raise. -/
def featuresOf (payload : Obj) : Option (List Obj) :=
  match dget payload "features" with
  | none => some []
  | some (JsonVal.arr xs) =>
      xs.mapM (fun v => match v with | JsonVal.obj o => some o | _ => none)
  | some _ => none

/-- `payload = {k: v for k, v in current.items() if k not in readonly_fields}`. -/
def basePayload (current : Obj) : Obj :=
  current.filter (fun p => !readonly_fields.contains p.1)

/-- The payload after the first two assignments of `main` step 3:
`payload["response_format"] = {"type": "json_object"}` and
`payload["agent_instructions"] = system_prompt`. -/
def payloadWithMeta (current : Obj) (system_prompt : JsonVal) : Obj :=
  dset (dset (basePayload current) "response_format"
      (JsonVal.obj [("type", JsonVal.str "json_object")]))
    "agent_instructions" system_prompt

/-- The payload construction of `main` step 3: drop `readonly_fields`, set
`response_format` to `{"type": "json_object"}`, set `agent_instructions` to
the loaded prompt, and set `features` to
`ensure_short_term_memory(payload.get("features", []))`.  `none` when the
features value is not a list of dicts (the source raises there). -/
def mergePayload (current : Obj) (system_prompt : JsonVal) : Option Obj :=
  match featuresOf (payloadWithMeta current system_prompt) with
  | none => none
  | some fs =>
      some (dset (payloadWithMeta current system_prompt) "features"
        (JsonVal.arr ((ensure_short_term_memory fs).map JsonVal.obj)))

/-! ## HTTP environment for update-builder-agent.py `main` -/

structure HttpResponse : Type where
  status : Nat
  body : Obj

/-- 2xx success statuses (`httpx.Response.raise_for_status` raises on any
other status). -/
def is2xx (s : Nat) : Bool := 200 ≤ s && s < 300

/-- `response.raise_for_status(); return response.json()`. -/
def raise_for_status (r : HttpResponse) : Except Nat Obj :=
  if is2xx r.status then Except.ok r.body else Except.error r.status

/-- A request issued over the wire, carrying the `X-API-Key` header value. -/
inductive HReq : Type where
  | get (key : String)
  | put (key : String)
  | post (key : String)
deriving DecidableEq

/-- The remote service's behavior during one run: the parsed YAML document
(`none` = missing file), the response to the first `GET`, the response to the
`PUT` (as a function of the submitted payload), and the response to the
verification re-`GET`. -/
structure Env : Type where
  yamlData : Option Obj
  fetchResp : HttpResponse
  putResp : Obj → HttpResponse
  refetchResp : HttpResponse

/-- `get_current_agent` (the first fetch). -/
def get_current_agent (env : Env) : Except Nat Obj :=
  raise_for_status env.fetchResp

/-- `update_agent(payload)`. -/
def update_agent (env : Env) (payload : Obj) : Except Nat Obj :=
  raise_for_status (env.putResp payload)

/-- Whether `[f.get("type") for f in d.get("features", [])]` evaluates
without raising: the features value is absent or is an array of objects. -/
def featuresIterable (d : Obj) : Bool :=
  match dget d "features" with
  | none => true
  | some (JsonVal.arr xs) =>
      xs.all (fun v => match v with | JsonVal.obj _ => true | _ => false)
  | some _ => false

/-- Whether `d.get("response_format", {}).get("type")` evaluates without
raising: the value is absent or is an object. -/
def respFormatGettable (d : Obj) : Bool :=
  match dget d "response_format" with
  | none => true
  | some (JsonVal.obj _) => true
  | some _ => false

/-- `updated.get("response_format", {}).get("type") == "json_object"` (the
first verification check). -/
def respFormatIsJsonObject (d : Obj) : Bool :=
  match dget d "response_format" with
  | some (JsonVal.obj o) =>
      match dget o "type" with
      | some (JsonVal.str s) => s = "json_object"
      | _ => false
  | _ => false

/-- `any(f.get("type") == "SHORT_TERM_MEMORY" for f in
updated.get("features", []))` (the second verification check). -/
def hasShortTermMemory (d : Obj) : Bool :=
  match dget d "features" with
  | some (JsonVal.arr xs) =>
      xs.any (fun v =>
        match v with
        | JsonVal.obj o =>
            match dget o "type" with
            | some (JsonVal.str s) => s = "SHORT_TERM_MEMORY"
            | _ => false
        | _ => false)
  | _ => false

/-- Both post-update verification checks of `main` step 5. -/
def verificationPasses (updated : Obj) : Bool :=
  respFormatIsJsonObject updated && hasShortTermMemory updated

/-- `main` of update-builder-agent.py, returning the trace of HTTP requests
issued (each tagged with the API key sent in its header) and the process
exit status.  Every uncaught exception path (load failure, non-2xx response,
`current["name"]` KeyError, malformed features or response_format on the
fetched or re-fetched body) exits 1 at the point it is raised; the
verification outcome of step 5 only selects what is printed, so the final
branch exits 0 whether or not the checks pass. -/
def runMain (key : String) (env : Env) : List HReq × Nat :=
  match load_system_prompt_from_yaml env.yamlData with
  | Except.error _ => ([], 1)
  | Except.ok system_prompt =>
    match get_current_agent env with
    | Except.error _ => ([HReq.get key], 1)
    | Except.ok current =>
      if (dget current "name").isNone then ([HReq.get key], 1)
      else
        match mergePayload current system_prompt with
        | none => ([HReq.get key], 1)
        | some payload =>
          match update_agent env payload with
          | Except.error _ => ([HReq.get key, HReq.put key], 1)
          | Except.ok _ =>
            match raise_for_status env.refetchResp with
            | Except.error _ => ([HReq.get key, HReq.put key, HReq.get key], 1)
            | Except.ok updated =>
              if featuresIterable updated && respFormatGettable updated then
                ([HReq.get key, HReq.put key, HReq.get key], 0)
              else
                ([HReq.get key, HReq.put key, HReq.get key], 1)

/-- The fallback literal in
`os.environ.get("LYZR_API_KEY", "sk-default-...")`. -/
def UPDATE_FALLBACK_KEY : String := "sk-default-8YV7PJp8NNBoZpVfOz8jg6GN0dPkaIEn"

/-- The `API_KEY` binding of update-builder-agent.py: the environment value
when set, the fallback literal otherwise. -/
def update_api_key (envKey : Option String) : String :=
  envKey.getD UPDATE_FALLBACK_KEY

/-! ## create-readme-agent.py -/

/-- The response to the creation `POST`, with the raw body text kept for
error reporting alongside the parsed JSON body. -/
structure CreateResp : Type where
  status : Nat
  text : String
  body : Obj

/-- What `create_agent` reports: failure echoes the status code and raw body
before `sys.exit(1)`; success extracts `result.get("agent_id")`. -/
inductive CreateOutcome : Type where
  | failure (status : Nat) (text : String)
  | created (agent_id : Option JsonVal)

/-- `create_agent`: only a 200 status is a success. -/
def create_agent (resp : CreateResp) : CreateOutcome × Nat :=
  if resp.status ≠ 200 then (CreateOutcome.failure resp.status resp.text, 1)
  else (CreateOutcome.created (dget resp.body "agent_id"), 0)

/-- The whole create-readme-agent.py script: the module-level
`if not API_KEY: sys.exit(1)` check runs before any request (an empty
credential string is falsy too), then `create_agent` issues one `POST`. -/
def runCreateScript (envKey : Option String) (resp : CreateResp) :
    List HReq × Nat :=
  match envKey with
  | none => ([], 1)
  | some key =>
    if key = "" then ([], 1)
    else ([HReq.post key], (create_agent resp).2)

/-! ## Python list semantics of ensure_short_term_memory -/

/-- `ensure_short_term_memory` at the level of Python list objects: the
argument is a reference `r` into a store of list objects; the list
comprehension allocates a fresh list object `fresh` and rebinds the local
name to it, and `.append` then mutates only that fresh object. -/
def ensure_short_term_memory_impl (r fresh : Nat) (store : Nat → List Obj) :
    Nat × (Nat → List Obj) :=
  let filtered := (store r).filter (fun f => !isMemoryFeature f)
  let store1 : Nat → List Obj := fun i => if i = fresh then filtered else store i
  let store2 : Nat → List Obj :=
    fun i => if i = fresh then store1 fresh ++ [SHORT_TERM_MEMORY_CONFIG] else store1 i
  (fresh, store2)

/-! ## Concrete runs used by witnesses and counterexamples -/

/-- A YAML document with a nonempty `spec.instructions`. -/
def yamlOk : Obj :=
  [("spec", JsonVal.obj [("instructions", JsonVal.str "Hello.")])]

/-- A fetched agent body carrying server-owned fields, a text response
format and one structured-memory feature (the end-to-end scenario of the
spec). -/
def fetchedBody : Obj :=
  [("_id", JsonVal.str "695aad9ba45696ac999e18cf"),
   ("name", JsonVal.str "Blueprint Builder"),
   ("response_format", JsonVal.obj [("type", JsonVal.str "text")]),
   ("features", JsonVal.arr
      [JsonVal.obj [("type", JsonVal.str "STRUCTURED_MEMORY"),
                    ("config", JsonVal.obj []),
                    ("priority", JsonVal.num 1)]]),
   ("created_at", JsonVal.str "2026-01-01"),
   ("version", JsonVal.num 3)]

/-- A re-fetched body on which both verification checks fail. -/
def staleBody : Obj :=
  [("name", JsonVal.str "Blueprint Builder"),
   ("response_format", JsonVal.obj [("type", JsonVal.str "text")]),
   ("features", JsonVal.arr [])]

/-- A run in which every HTTP call succeeds but the service did not apply
the update, so both verification checks fail on the re-fetched body. -/
def envStale : Env :=
  { yamlData := some yamlOk
    fetchResp := { status := 200, body := fetchedBody }
    putResp := fun _ => { status := 200, body := fetchedBody }
    refetchResp := { status := 200, body := staleBody } }

/-- A run aborted by a missing YAML file. -/
def envNoYaml : Env :=
  { yamlData := none
    fetchResp := { status := 200, body := fetchedBody }
    putResp := fun _ => { status := 200, body := fetchedBody }
    refetchResp := { status := 200, body := fetchedBody } }

/-- A run whose initial fetch returns 404. -/
def envFetch404 : Env :=
  { yamlData := some yamlOk
    fetchResp := { status := 404, body := [] }
    putResp := fun _ => { status := 200, body := fetchedBody }
    refetchResp := { status := 200, body := fetchedBody } }

/-! ## Theorems -/

theorem filter_isMem_filter_not (L : List Obj) :
    (L.filter (fun f => !isMemoryFeature f)).filter (fun f => isMemoryFeature f) = [] := by
  induction L with
  | nil => rfl
  | cons f rest ih =>
    by_cases h : isMemoryFeature f = true <;>
      simp [List.filter_cons, h, ih]

theorem filter_not_idem (L : List Obj) :
    (L.filter (fun f => !isMemoryFeature f)).filter (fun f => !isMemoryFeature f)
      = L.filter (fun f => !isMemoryFeature f) := by
  induction L with
  | nil => rfl
  | cons f rest ih =>
    by_cases h : isMemoryFeature f = true <;>
      simp [List.filter_cons, h, ih]

/-- C1: for every feature list `L`, `ensure_short_term_memory L` has exactly
one memory-kind entry, equal to `SHORT_TERM_MEMORY_CONFIG`, placed last, and
its non-memory entries are exactly those of `L`, unchanged and in their
original relative order. -/
theorem ensure_short_term_memory_spec (L : List Obj) :
    (ensure_short_term_memory L).filter (fun f => isMemoryFeature f)
        = [SHORT_TERM_MEMORY_CONFIG]
    ∧ (ensure_short_term_memory L).countP (fun f => isMemoryFeature f) = 1
    ∧ (ensure_short_term_memory L).getLast? = some SHORT_TERM_MEMORY_CONFIG
    ∧ (ensure_short_term_memory L).filter (fun f => !isMemoryFeature f)
        = L.filter (fun f => !isMemoryFeature f) := by
  have hmem : isMemoryFeature SHORT_TERM_MEMORY_CONFIG = true := by decide
  refine ⟨?_, ?_, ?_, ?_⟩
  · simp [ensure_short_term_memory, List.filter_append, filter_isMem_filter_not, hmem]
  · have h := filter_isMem_filter_not L
    simp [ensure_short_term_memory, List.countP_append, List.countP_eq_length_filter, h, hmem]
  · simp [ensure_short_term_memory]
  · simp [ensure_short_term_memory, List.filter_append, filter_not_idem, hmem]

/-! ## Dictionary lemmas -/

theorem dget_dset_self (d : Obj) (k : String) (v : JsonVal) :
    dget (dset d k v) k = some v := by
  induction d with
  | nil => simp [dset, dget]
  | cons p rest ih =>
    obtain ⟨k', v'⟩ := p
    by_cases h : k' = k <;> simp [dset, dget, h, ih]

theorem dget_dset_ne (d : Obj) (k k' : String) (v : JsonVal) (h : k' ≠ k) :
    dget (dset d k v) k' = dget d k' := by
  induction d with
  | nil => simp [dset, dget, Ne.symm h]
  | cons p rest ih =>
    obtain ⟨k'', v''⟩ := p
    by_cases hk : k'' = k
    · subst hk
      simp [dset, dget, Ne.symm h, h]
    · simp [dset, dget, hk, ih]

theorem dget_filter (q : String → Bool) (d : Obj) (k : String) :
    dget (d.filter (fun p => q p.1)) k = if q k then dget d k else none := by
  induction d with
  | nil => cases hq : q k <;> simp [dget, hq]
  | cons p rest ih =>
    obtain ⟨k', v'⟩ := p
    by_cases hk : k' = k
    · subst hk
      cases hq : q k' <;> simp [List.filter_cons, dget, hq, ih]
    · cases hq : q k' <;> simp [List.filter_cons, dget, hq, hk, ih]

theorem dget_payloadWithMeta (current : Obj) (sp : JsonVal) (k : String)
    (h1 : k ≠ "response_format") (h2 : k ≠ "agent_instructions") :
    dget (payloadWithMeta current sp) k
      = if readonly_fields.contains k then none else dget current k := by
  unfold payloadWithMeta basePayload
  rw [dget_dset_ne _ _ _ _ h2, dget_dset_ne _ _ _ _ h1,
    dget_filter (fun s => !readonly_fields.contains s)]
  cases hc : readonly_fields.contains k <;> simp [hc]

theorem dget_payloadWithMeta_rf (current : Obj) (sp : JsonVal) :
    dget (payloadWithMeta current sp) "response_format"
      = some (JsonVal.obj [("type", JsonVal.str "json_object")]) := by
  unfold payloadWithMeta
  rw [dget_dset_ne _ _ _ _ (by decide), dget_dset_self]

theorem dget_payloadWithMeta_ai (current : Obj) (sp : JsonVal) :
    dget (payloadWithMeta current sp) "agent_instructions" = some sp := by
  unfold payloadWithMeta
  rw [dget_dset_self]

theorem mergePayload_shape (current : Obj) (sp : JsonVal) (P : Obj)
    (hP : mergePayload current sp = some P) :
    ∃ fs, featuresOf (payloadWithMeta current sp) = some fs
      ∧ P = dset (payloadWithMeta current sp) "features"
          (JsonVal.arr ((ensure_short_term_memory fs).map JsonVal.obj)) := by
  unfold mergePayload at hP
  cases h : featuresOf (payloadWithMeta current sp) with
  | none => rw [h] at hP; exact absurd hP (by simp)
  | some fs =>
    rw [h] at hP
    exact ⟨fs, rfl, (Option.some.injEq _ _ ▸ hP).symm⟩

/-- C2: for every fetched configuration, the merged update payload contains
none of the server-owned keys, and every other key of the fetched
configuration keeps its fetched value except the three overwritten fields
`response_format`, `agent_instructions` and `features`. -/
theorem mergePayload_field_spec (current : Obj) (sp : JsonVal) (P : Obj)
    (hP : mergePayload current sp = some P) :
    (∀ k, k ∈ readonly_fields → dget P k = none)
    ∧ (∀ k, k ∉ readonly_fields → k ≠ "response_format" →
        k ≠ "agent_instructions" → k ≠ "features" → dget P k = dget current k) := by
  obtain ⟨fs, _, hPeq⟩ := mergePayload_shape current sp P hP
  subst hPeq
  constructor
  · intro k hk
    have hk' : k = "_id" ∨ k = "created_at" ∨ k = "updated_at"
        ∨ k = "api_key" ∨ k = "version" := by
      simpa [readonly_fields] using hk
    rcases hk' with h | h | h | h | h <;> subst h <;>
      rw [dget_dset_ne _ _ _ _ (by decide),
        dget_payloadWithMeta _ _ _ (by decide) (by decide)] <;> rfl
  · intro k hk h1 h2 h3
    rw [dget_dset_ne _ _ _ _ h3, dget_payloadWithMeta _ _ _ h1 h2]
    have hc : readonly_fields.contains k = false := by
      simpa using hk
    simp [hc, hk]

/-- Witness for C2 at the end-to-end fetched body of the spec. -/
theorem mergePayload_field_spec_witness :
    dget ((mergePayload fetchedBody (JsonVal.str "Hello.")).getD []) "_id" = none
    ∧ dget ((mergePayload fetchedBody (JsonVal.str "Hello.")).getD []) "name"
        = dget fetchedBody "name" := by
  have h := mergePayload_field_spec fetchedBody (JsonVal.str "Hello.")
    ((mergePayload fetchedBody (JsonVal.str "Hello.")).getD []) (by rfl)
  exact ⟨h.1 "_id" (by decide), h.2 "name" (by decide) (by decide) (by decide) (by decide)⟩

/-- C4: when the YAML file is absent, or the nested `spec.instructions`
field is absent or empty, the run raises the corresponding error (missing
file when the file is absent, missing field otherwise) and terminates with
a non-zero status before issuing any HTTP request. -/
theorem runMain_load_failure (key : String) (env : Env)
    (h : env.yamlData = none
      ∨ ∃ data, env.yamlData = some data
          ∧ (rawInstructions data = none
            ∨ rawInstructions data = some (JsonVal.str ""))) :
    runMain key env = ([], 1)
    ∧ load_system_prompt_from_yaml env.yamlData
        = Except.error (if env.yamlData.isNone then "YAML file not found"
            else "No instructions found in YAML file") := by
  have hload : load_system_prompt_from_yaml env.yamlData
      = Except.error (if env.yamlData.isNone then "YAML file not found"
          else "No instructions found in YAML file") := by
    rcases h with h | ⟨data, hd, hi⟩
    · rw [h]; rfl
    · rw [hd]
      rcases hi with hi | hi <;>
        simp [load_system_prompt_from_yaml, hi, pyFalsy]
  refine ⟨?_, hload⟩
  unfold runMain
  rw [hload]

/-- Witness for C4: a run with no YAML file issues no request and exits 1. -/
theorem runMain_load_failure_witness :
    runMain "k" envNoYaml = ([], 1)
    ∧ load_system_prompt_from_yaml envNoYaml.yamlData
        = Except.error (if envNoYaml.yamlData.isNone then "YAML file not found"
            else "No instructions found in YAML file") :=
  runMain_load_failure "k" envNoYaml (Or.inl rfl)

/-- C5: when the initial fetch returns a non-2xx status, the run exits with
a non-zero status and never issues a `PUT`. -/
theorem runMain_fetch_error_no_put (key : String) (env : Env)
    (h : is2xx env.fetchResp.status = false) :
    (runMain key env).2 = 1 ∧ ∀ k, HReq.put k ∉ (runMain key env).1 := by
  unfold runMain
  cases hload : load_system_prompt_from_yaml env.yamlData with
  | error e => exact ⟨rfl, by simp⟩
  | ok sp =>
    have hget : get_current_agent env = Except.error env.fetchResp.status := by
      unfold get_current_agent raise_for_status
      rw [h]
      rfl
    rw [hget]
    exact ⟨rfl, by simp⟩

/-- Witness for C5: a 404 on the initial fetch aborts without a `PUT`. -/
theorem runMain_fetch_error_no_put_witness :
    (runMain "k" envFetch404).2 = 1
    ∧ ∀ k, HReq.put k ∉ (runMain "k" envFetch404).1 :=
  runMain_fetch_error_no_put "k" envFetch404 rfl

/-- C3 counterexample: a run in which every HTTP call succeeds but the
re-fetched body fails both verification checks still exits with status 0,
contradicting the claim that a failed check yields a non-zero exit. -/
theorem runMain_exit_zero_despite_failed_checks :
    runMain UPDATE_FALLBACK_KEY envStale
        = ([HReq.get UPDATE_FALLBACK_KEY, HReq.put UPDATE_FALLBACK_KEY,
            HReq.get UPDATE_FALLBACK_KEY], 0)
    ∧ verificationPasses staleBody = false
    ∧ (raise_for_status envStale.refetchResp = Except.ok staleBody) := by
  exact ⟨rfl, rfl, rfl⟩

/-- C3 amended: the exit status is 0 exactly when the YAML load, both `GET`s
and the `PUT` succeed and the touched fields of the fetched bodies are
well-formed; the two verification checks only select what is printed and
never affect the exit status. -/
theorem runMain_exit_ignores_verification (key : String) (env : Env)
    (sp : JsonVal) (current payload updated : Obj)
    (h1 : load_system_prompt_from_yaml env.yamlData = Except.ok sp)
    (h2 : get_current_agent env = Except.ok current)
    (h3 : (dget current "name").isNone = false)
    (h4 : mergePayload current sp = some payload)
    (h5 : is2xx (env.putResp payload).status = true)
    (h6 : raise_for_status env.refetchResp = Except.ok updated)
    (h7 : featuresIterable updated = true)
    (h8 : respFormatGettable updated = true) :
    (runMain key env).2 = 0 := by
  have hput : update_agent env payload = Except.ok (env.putResp payload).body := by
    unfold update_agent raise_for_status
    rw [h5]
    rfl
  simp [runMain, h1, h2, h3, h4, h6, h7, h8, hput]

/-- Witness for the amended C3, at a run whose verification checks fail. -/
theorem runMain_exit_ignores_verification_witness :
    (runMain "k" envStale).2 = 0 :=
  runMain_exit_ignores_verification "k" envStale (JsonVal.str "Hello.")
    fetchedBody ((mergePayload fetchedBody (JsonVal.str "Hello.")).getD [])
    staleBody rfl rfl rfl rfl rfl rfl rfl rfl

/-- C6: merging an already-reconciled fetched config (structured output mode
already set, feature list already exactly the canonical short-term-memory
entry, no server-owned fields) changes no field except that
`agent_instructions` is overwritten with the YAML instructions. -/
theorem mergePayload_roundtrip (current : Obj) (sp : JsonVal)
    (hrf : dget current "response_format"
        = some (JsonVal.obj [("type", JsonVal.str "json_object")]))
    (hft : dget current "features"
        = some (JsonVal.arr [JsonVal.obj SHORT_TERM_MEMORY_CONFIG]))
    (hro : ∀ k, k ∈ readonly_fields → dget current k = none) :
    ∃ P, mergePayload current sp = some P
      ∧ dget P "agent_instructions" = some sp
      ∧ ∀ k, k ≠ "agent_instructions" → dget P k = dget current k := by
  have hft2 : dget (payloadWithMeta current sp) "features"
      = some (JsonVal.arr [JsonVal.obj SHORT_TERM_MEMORY_CONFIG]) := by
    rw [dget_payloadWithMeta _ _ _ (by decide) (by decide),
      if_neg (show ¬(readonly_fields.contains "features" = true) by decide)]
    exact hft
  have hfs : featuresOf (payloadWithMeta current sp)
      = some [SHORT_TERM_MEMORY_CONFIG] := by
    unfold featuresOf
    rw [hft2]
    exact rfl
  refine ⟨dset (payloadWithMeta current sp) "features"
      (JsonVal.arr [JsonVal.obj SHORT_TERM_MEMORY_CONFIG]), ?_, ?_, ?_⟩
  · unfold mergePayload
    rw [hfs]
    exact rfl
  · rw [dget_dset_ne _ _ _ _ (by decide), dget_payloadWithMeta_ai]
  · intro k hk
    by_cases hf : k = "features"
    · subst hf
      rw [dget_dset_self, hft]
    · by_cases hr : k = "response_format"
      · subst hr
        rw [dget_dset_ne _ _ _ _ (by decide), dget_payloadWithMeta_rf, hrf]
      · rw [dget_dset_ne _ _ _ _ hf, dget_payloadWithMeta _ _ _ hr hk]
        cases hc : readonly_fields.contains k with
        | true =>
          have hmem : k ∈ readonly_fields := by simpa using hc
          simp [hro k hmem]
        | false => simp

/-- An already-reconciled agent body (no server-owned fields, structured
output mode, canonical feature list). -/
def reconciledBody : Obj :=
  [("name", JsonVal.str "Blueprint Builder"),
   ("response_format", JsonVal.obj [("type", JsonVal.str "json_object")]),
   ("features", JsonVal.arr [JsonVal.obj SHORT_TERM_MEMORY_CONFIG]),
   ("agent_instructions", JsonVal.str "old text")]

/-- Witness for C6 at a concrete already-reconciled body. -/
theorem mergePayload_roundtrip_witness :
    ∃ P, mergePayload reconciledBody (JsonVal.str "Hello.") = some P
      ∧ dget P "agent_instructions" = some (JsonVal.str "Hello.")
      ∧ ∀ k, k ≠ "agent_instructions" → dget P k = dget reconciledBody k := by
  refine mergePayload_roundtrip reconciledBody (JsonVal.str "Hello.") rfl rfl ?_
  intro k hk
  have hk' : k = "_id" ∨ k = "created_at" ∨ k = "updated_at"
      ∨ k = "api_key" ∨ k = "version" := by
    simpa [readonly_fields] using hk
  rcases hk' with h | h | h | h | h <;> subst h <;> rfl

/-- C7: the creation procedure fails, reporting the status code and the raw
response body and exiting non-zero, on every non-200 submission response; on
a 200 response it succeeds with exit status 0 and reports the extracted
`agent_id`. -/
theorem create_agent_spec (resp : CreateResp) :
    (resp.status ≠ 200 →
        create_agent resp = (CreateOutcome.failure resp.status resp.text, 1))
    ∧ (resp.status = 200 →
        create_agent resp = (CreateOutcome.created (dget resp.body "agent_id"), 0)) := by
  constructor <;> intro h <;> simp [create_agent, h]

/-- Witness for C7 at a 500 response and at a 200 response. -/
theorem create_agent_spec_witness :
    create_agent { status := 500, text := "internal error", body := [] }
        = (CreateOutcome.failure 500 "internal error", 1)
    ∧ create_agent
          { status := 200, text := "", body := [("agent_id", JsonVal.str "abc")] }
        = (CreateOutcome.created (some (JsonVal.str "abc")), 0) :=
  ⟨(create_agent_spec { status := 500, text := "internal error", body := [] }).1
      (by decide),
   (create_agent_spec
      { status := 200, text := "", body := [("agent_id", JsonVal.str "abc")] }).2 rfl⟩

theorem runMain_trace_keys (key : String) (env : Env) :
    ∀ r ∈ (runMain key env).1, r = HReq.get key ∨ r = HReq.put key := by
  intro r hr
  unfold runMain at hr
  repeat' split at hr
  all_goals simp at hr
  all_goals tauto

theorem runMain_exit_key_irrel (env : Env) (k k' : String) :
    (runMain k env).2 = (runMain k' env).2 := by
  cases hl : load_system_prompt_from_yaml env.yamlData with
  | error e => simp [runMain, hl]
  | ok sp =>
    cases hg : get_current_agent env with
    | error e => simp [runMain, hl, hg]
    | ok current =>
      cases hn : (dget current "name").isNone with
      | true => simp [runMain, hl, hg, hn]
      | false =>
        cases hm : mergePayload current sp with
        | none => simp [runMain, hl, hg, hn, hm]
        | some payload =>
          cases hu : update_agent env payload with
          | error e => simp [runMain, hl, hg, hn, hm, hu]
          | ok b =>
            cases hr : raise_for_status env.refetchResp with
            | error e => simp [runMain, hl, hg, hn, hm, hu, hr]
            | ok updated =>
              cases hw : featuresIterable updated && respFormatGettable updated <;>
                simp [runMain, hl, hg, hn, hm, hu, hr, hw]

/-- C8: with the credential variable unset, the creation script reports an
error and exits 1 before issuing any request, while the update script keeps
running: its `API_KEY` falls back to the hardcoded literal, every request it
issues carries that literal, and its exit status is the same as with any
other key. -/
theorem api_key_handling (resp : CreateResp) (env : Env) :
    runCreateScript none resp = ([], 1)
    ∧ update_api_key none = UPDATE_FALLBACK_KEY
    ∧ (∀ r ∈ (runMain (update_api_key none) env).1,
        r = HReq.get UPDATE_FALLBACK_KEY ∨ r = HReq.put UPDATE_FALLBACK_KEY)
    ∧ ∀ k k', (runMain k env).2 = (runMain k' env).2 :=
  ⟨rfl, rfl, runMain_trace_keys (update_api_key none) env,
   fun k k' => runMain_exit_key_irrel env k k'⟩

/-- Witness for C8: concrete unset-credential runs of both scripts. -/
theorem api_key_handling_witness :
    runCreateScript none { status := 200, text := "", body := [] } = ([], 1)
    ∧ (HReq.get UPDATE_FALLBACK_KEY = HReq.get UPDATE_FALLBACK_KEY
        ∨ HReq.get UPDATE_FALLBACK_KEY = HReq.put UPDATE_FALLBACK_KEY)
    ∧ (runMain "A" envStale).2 = (runMain "B" envStale).2 :=
  ⟨(api_key_handling { status := 200, text := "", body := [] } envStale).1,
   (api_key_handling { status := 200, text := "", body := [] } envStale).2.2.1
      (HReq.get UPDATE_FALLBACK_KEY) (by decide),
   (api_key_handling { status := 200, text := "", body := [] } envStale).2.2.2 "A" "B"⟩

/-- C9: at the Python list level, `ensure_short_term_memory` returns a newly
allocated list and leaves the caller's list object unchanged: the returned
reference differs from the argument reference, the argument's contents are
untouched, and the fresh object holds the merged feature list. -/
theorem ensure_short_term_memory_pure (r fresh : Nat) (store : Nat → List Obj)
    (h : fresh ≠ r) :
    (ensure_short_term_memory_impl r fresh store).1 ≠ r
    ∧ (ensure_short_term_memory_impl r fresh store).2 r = store r
    ∧ (ensure_short_term_memory_impl r fresh store).2
          (ensure_short_term_memory_impl r fresh store).1
        = ensure_short_term_memory (store r) := by
  refine ⟨h, ?_, ?_⟩
  · simp [ensure_short_term_memory_impl, Ne.symm h]
  · simp [ensure_short_term_memory_impl, ensure_short_term_memory]

/-- Witness for C9 at a store holding one single-feature list. -/
theorem ensure_short_term_memory_pure_witness :
    (ensure_short_term_memory_impl 0 1 (fun _ => [reconciledBody])).1 ≠ 0
    ∧ (ensure_short_term_memory_impl 0 1 (fun _ => [reconciledBody])).2 0
        = (fun _ => [reconciledBody]) 0
    ∧ (ensure_short_term_memory_impl 0 1 (fun _ => [reconciledBody])).2
          (ensure_short_term_memory_impl 0 1 (fun _ => [reconciledBody])).1
        = ensure_short_term_memory ((fun _ => [reconciledBody]) 0) :=
  ensure_short_term_memory_pure 0 1 (fun _ => [reconciledBody]) (by decide)

/-- A feature entry of an unrelated, non-memory kind. -/
def featWeb : Obj :=
  [("type", JsonVal.str "web_search"), ("config", JsonVal.obj [])]

/-- C10: a feature entry lacking a `type` key, carrying a non-string type,
or carrying a string type outside the three memory kinds, is classified as
non-memory and survives the merge; and when the fetched config has no
`features` key at all, the merged payload's feature list is exactly the
single fixed short-term-memory entry. -/
theorem nonmemory_and_missing_features (f current : Obj) (L : List Obj)
    (sp : JsonVal) :
    ((∀ s, dget f "type" = some (JsonVal.str s) →
        s ∉ (["memory", "SHORT_TERM_MEMORY", "STRUCTURED_MEMORY"] : List String)) →
      isMemoryFeature f = false ∧ (f ∈ L → f ∈ ensure_short_term_memory L))
    ∧ (dget current "features" = none →
      ∃ P, mergePayload current sp = some P
        ∧ dget P "features"
            = some (JsonVal.arr [JsonVal.obj SHORT_TERM_MEMORY_CONFIG])) := by
  constructor
  · intro h
    have hmem : isMemoryFeature f = false := by
      unfold isMemoryFeature
      cases hv : dget f "type" with
      | none => rfl
      | some v =>
        cases v with
        | str s =>
          have hs := h s hv
          simp at hs
          simp [isMemoryType, hs]
        | num n => rfl
        | bool b => rfl
        | null => rfl
        | arr xs => rfl
        | obj o => rfl
    refine ⟨hmem, fun hfL => ?_⟩
    unfold ensure_short_term_memory
    exact List.mem_append_left _ (List.mem_filter.mpr ⟨hfL, by simp [hmem]⟩)
  · intro hnf
    have hnf2 : dget (payloadWithMeta current sp) "features" = none := by
      rw [dget_payloadWithMeta _ _ _ (by decide) (by decide),
        if_neg (show ¬(readonly_fields.contains "features" = true) by decide)]
      exact hnf
    have hfs : featuresOf (payloadWithMeta current sp) = some [] := by
      unfold featuresOf
      rw [hnf2]
    refine ⟨dset (payloadWithMeta current sp) "features"
        (JsonVal.arr [JsonVal.obj SHORT_TERM_MEMORY_CONFIG]), ?_, ?_⟩
    · unfold mergePayload
      rw [hfs]
      exact rfl
    · rw [dget_dset_self]

/-- Witness for C10 at an unrelated feature entry and a config with no
features key. -/
theorem nonmemory_and_missing_features_witness :
    (isMemoryFeature featWeb = false
      ∧ (featWeb ∈ [featWeb] → featWeb ∈ ensure_short_term_memory [featWeb]))
    ∧ ∃ P, mergePayload [("name", JsonVal.str "x")] (JsonVal.str "Hi") = some P
        ∧ dget P "features"
            = some (JsonVal.arr [JsonVal.obj SHORT_TERM_MEMORY_CONFIG]) := by
  have h := nonmemory_and_missing_features featWeb [("name", JsonVal.str "x")]
    [featWeb] (JsonVal.str "Hi")
  refine ⟨h.1 ?_, h.2 rfl⟩
  intro s hs
  have hs' : s = "web_search" := by
    have : some (JsonVal.str "web_search") = some (JsonVal.str s) := hs
    cases this
    rfl
  subst hs'
  decide
